import Mathlib

/-!
Verification development for the crawl-server repository: a shallow embedding
of the render coordinator in `src/server.js` (the module imported by
`src/main.js` and `src/cloudFunction.js`), of the stale revisions kept under
`src/unnamed/`, and of the worker-side code in `src/cloudFunction.js` (the
forked process handler) and `src/spawnWasi.js`.

Machine integers are modelled as `Nat`/`Int` with explicit `% 2 ^ w` where
JavaScript performs 32-bit arithmetic (the MD5 core); JavaScript truthiness
of numbers is modelled as `≠ 0`, of optional strings as present-and-nonempty,
and property access on `undefined` (a TypeError) as `Except.error`.
-/

namespace CrawlServer

/-! ## Id-stripping (src/server.js lines 253-256, `Server.removeIds`)

The source is `html.replace(/\s+id=["'][^"']*["']/g, '')`.  The regular
expression is deterministic: `\s+` is followed by the literal `i`, which is
not a whitespace character, so only the maximal whitespace run can be used,
and `[^"']*` is followed by `["']`, so only the maximal quote-free run can be
used.  The global replace scans left to right: at each position it removes
the match starting there, or copies one character and moves on. -/

/-- Character class `\s` of JavaScript regular expressions:
space, tab, line feed, vertical tab, form feed, carriage return, NBSP,
U+1680, U+2000..U+200A, U+2028, U+2029, U+202F, U+205F, U+3000, U+FEFF. -/
def isJsWhitespace (c : Char) : Bool :=
  c = ' ' || c = '\t' || c = '\n' || c = '\x0b' || c = '\x0c' || c = '\r' ||
  c.toNat = 160 || c.toNat = 5760 || (8192 ≤ c.toNat && c.toNat ≤ 8202) ||
  c.toNat = 8232 || c.toNat = 8233 || c.toNat = 8239 || c.toNat = 8287 ||
  c.toNat = 12288 || c.toNat = 65279

/-- Character class `["']` of the id-stripping regular expression. -/
def isQuoteChar (c : Char) : Bool :=
  c = '"' || c = '\x27'

/-- Match `[^"']*["']` at the head of `l`: skip the maximal run of
non-quote characters, then consume one quote character.  Returns the
remainder of the list after the match, or `none` when no quote follows. -/
def matchAfterQuote (l : List Char) : Option (List Char) :=
  match l.dropWhile (fun c => !(isQuoteChar c)) with
  | _ :: r => some r
  | [] => none

/-- Match the literal `id=` followed by `["']` followed by `[^"']*["']`
at the head of `l`. -/
def matchIdTail (l : List Char) : Option (List Char) :=
  match l with
  | 'i' :: 'd' :: '=' :: q :: rest =>
      if isQuoteChar q then matchAfterQuote rest else none
  | _ => none

/-- Match the whole pattern `\s+id=["'][^"']*["']` at the head of `l`:
at least one whitespace character (the maximal run is consumed, which is
the only possibility since `i` is not whitespace), then the tail pattern. -/
def matchIdAttr (l : List Char) : Option (List Char) :=
  match l with
  | [] => none
  | c :: tl =>
      if isJsWhitespace c then matchIdTail (tl.dropWhile isJsWhitespace)
      else none

/-- Global replacement scan of `html.replace(/\s+id=["'][^"']*["']/g, '')`:
remove the match starting at the current position, else keep one character
and continue at the next position.  The first argument is fuel; each step
consumes one unit and strictly shortens the list (`matchIdAttr_length_lt`),
so fuel equal to the length of the list always suffices
(`removeIdsAux_fuel_irrelevant`). -/
def removeIdsAux : Nat → List Char → List Char
  | 0, _ => []
  | _ + 1, [] => []
  | n + 1, c :: tl =>
      Option.elim (matchIdAttr (c :: tl)) (c :: removeIdsAux n tl)
        (fun rest => removeIdsAux n rest)

/-- Embedding of `Server.removeIds` (src/server.js lines 253-256). -/
def removeIds (html : String) : String :=
  ⟨removeIdsAux html.data.length html.data⟩

/-! ## ETag generation (src/server.js lines 258-261, `Server.generateETag`)

The source is `createHash('md5').update(content).digest('hex')`.  Node's
`update` encodes a JavaScript string as UTF-8 and `digest('hex')` produces
lowercase hexadecimal.  MD5 (RFC 1321) is implemented below over `Nat`
with explicit reductions modulo `2 ^ 32`. -/

/-- UTF-8 encoding of one Unicode scalar value, as a list of byte values. -/
def utf8EncodeChar (c : Char) : List Nat :=
  let n := c.toNat
  if n < 128 then [n]
  else if n < 2048 then [192 + n / 64, 128 + n % 64]
  else if n < 65536 then [224 + n / 4096, 128 + (n / 64) % 64, 128 + n % 64]
  else [240 + n / 262144, 128 + (n / 4096) % 64, 128 + (n / 64) % 64,
        128 + n % 64]

/-- UTF-8 bytes of a string. -/
def utf8Bytes (s : String) : List Nat :=
  s.data.foldr (fun c acc => utf8EncodeChar c ++ acc) []

/-- Reduce to a 32-bit value. -/
def mask32 (x : Nat) : Nat := x % 4294967296

/-- 32-bit left rotation (operand assumed below `2 ^ 32`). -/
def rotl32 (x n : Nat) : Nat :=
  mask32 (x <<< n) + x >>> (32 - n)

/-- MD5 round function `F(b,c,d) = (b ∧ c) ∨ (¬b ∧ d)`. -/
def md5F (b c d : Nat) : Nat :=
  Nat.lor (Nat.land b c) (Nat.land (4294967295 - b) d)

/-- MD5 round function `G(b,c,d) = (b ∧ d) ∨ (c ∧ ¬d)`. -/
def md5G (b c d : Nat) : Nat :=
  Nat.lor (Nat.land b d) (Nat.land c (4294967295 - d))

/-- MD5 round function `H(b,c,d) = b ⊕ c ⊕ d`. -/
def md5H (b c d : Nat) : Nat :=
  Nat.xor b (Nat.xor c d)

/-- MD5 round function `I(b,c,d) = c ⊕ (b ∨ ¬d)`. -/
def md5I (b c d : Nat) : Nat :=
  Nat.xor c (Nat.lor b (4294967295 - d))

/-- MD5 sine-derived constant table `K` (RFC 1321). -/
def md5K : List Nat :=
  [3614090360, 3905402710, 606105819, 3250441966,
   4118548399, 1200080426, 2821735955, 4249261313,
   1770035416, 2336552879, 4294925233, 2304563134,
   1804603682, 4254626195, 2792965006, 1236535329,
   4129170786, 3225465664, 643717713, 3921069994,
   3593408605, 38016083, 3634488961, 3889429448,
   568446438, 3275163606, 4107603335, 1163531501,
   2850285829, 4243563512, 1735328473, 2368359562,
   4294588738, 2272392833, 1839030562, 4259657740,
   2763975236, 1272893353, 4139469664, 3200236656,
   681279174, 3936430074, 3572445317, 76029189,
   3654602809, 3873151461, 530742520, 3299628645,
   4096336452, 1126891415, 2878612391, 4237533241,
   1700485571, 2399980690, 4293915773, 2240044497,
   1873313359, 4264355552, 2734768916, 1309151649,
   4149444226, 3174756917, 718787259, 3951481745]

/-- MD5 per-operation rotation amounts (RFC 1321). -/
def md5S : List Nat :=
  [7, 12, 17, 22, 7, 12, 17, 22, 7, 12, 17, 22, 7, 12, 17, 22,
   5, 9, 14, 20, 5, 9, 14, 20, 5, 9, 14, 20, 5, 9, 14, 20,
   4, 11, 16, 23, 4, 11, 16, 23, 4, 11, 16, 23, 4, 11, 16, 23,
   6, 10, 15, 21, 6, 10, 15, 21, 6, 10, 15, 21, 6, 10, 15, 21]

/-- One MD5 operation: operation index `i` (0..63), message schedule `M`. -/
def md5Step (M : Nat → Nat) (st : Nat × Nat × Nat × Nat) (i : Nat) :
    Nat × Nat × Nat × Nat :=
  let a := st.1
  let b := st.2.1
  let c := st.2.2.1
  let d := st.2.2.2
  let f :=
    if i < 16 then md5F b c d
    else if i < 32 then md5G b c d
    else if i < 48 then md5H b c d
    else md5I b c d
  let g :=
    if i < 16 then i
    else if i < 32 then (5 * i + 1) % 16
    else if i < 48 then (3 * i + 5) % 16
    else (7 * i) % 16
  let tmp := mask32 (a + f + md5K.getD i 0 + M g)
  (d, mask32 (b + rotl32 tmp (md5S.getD i 0)), b, c)

/-- Little-endian 32-bit word `j` of a 64-byte block. -/
def leWord (block : List Nat) (j : Nat) : Nat :=
  block.getD (4 * j) 0 + 256 * block.getD (4 * j + 1) 0 +
    65536 * block.getD (4 * j + 2) 0 + 16777216 * block.getD (4 * j + 3) 0

/-- Process one 64-byte block. -/
def md5Block (st : Nat × Nat × Nat × Nat) (block : List Nat) :
    Nat × Nat × Nat × Nat :=
  let r := (List.range 64).foldl (md5Step (leWord block)) st
  (mask32 (st.1 + r.1), mask32 (st.2.1 + r.2.1),
   mask32 (st.2.2.1 + r.2.2.1), mask32 (st.2.2.2 + r.2.2.2))

/-- MD5 padding: `0x80`, zeros to 56 mod 64, 64-bit little-endian bit length. -/
def md5Pad (msg : List Nat) : List Nat :=
  let len := msg.length
  let z := (120 - (len + 1) % 64) % 64
  let bitLen := (len * 8) % 18446744073709551616
  msg ++ [128] ++ List.replicate z 0 ++
    (List.range 8).map (fun i => (bitLen >>> (8 * i)) % 256)

/-- Split a byte list into 64-byte blocks.  The first argument is fuel;
each step removes 64 bytes, so fuel equal to the length always suffices. -/
def toBlocksF : Nat → List Nat → List (List Nat)
  | 0, _ => []
  | _ + 1, [] => []
  | n + 1, x :: tl => (x :: tl).take 64 :: toBlocksF n ((x :: tl).drop 64)

/-- Split a byte list into 64-byte blocks. -/
def toBlocks (l : List Nat) : List (List Nat) :=
  toBlocksF l.length l

/-- MD5 digest of a byte list, as 16 byte values. -/
def md5Bytes (msg : List Nat) : List Nat :=
  let st := (toBlocks (md5Pad msg)).foldl md5Block
    (1732584193, 4023233417, 2562383102, 271733878)
  [st.1, st.2.1, st.2.2.1, st.2.2.2].foldr
    (fun w acc => ((List.range 4).map (fun i => (w >>> (8 * i)) % 256)) ++ acc) []

/-- Lowercase hexadecimal digit: `0`..`9` for 0..9, `a`..`f` for 10..15. -/
def hexDigit (n : Nat) : Char :=
  if n < 10 then Char.ofNat (48 + n) else Char.ofNat (87 + n)

/-- Lowercase hexadecimal rendering of a byte list. -/
def bytesToHex (l : List Nat) : List Char :=
  l.foldr (fun b acc => hexDigit (b / 16) :: hexDigit (b % 16) :: acc) []

/-- Lowercase hexadecimal MD5 digest of the UTF-8 encoding of a string:
the value of `createHash('md5').update(content).digest('hex')`. -/
def md5Hex (content : String) : String :=
  ⟨bytesToHex (md5Bytes (utf8Bytes content))⟩

/-- Embedding of `Server.generateETag` (src/server.js lines 258-261). -/
def generateETag (content : String) : String :=
  md5Hex content

/-! ## Render cache and request pipeline (src/server.js `requestHandler`)

JavaScript truthiness conventions used below: a number is truthy iff it is
nonzero; a string header value is truthy iff present and nonempty; a `Date`
object is always truthy, an absent (`undefined`) one falsy; reading a
property of `undefined` throws a TypeError, modelled as `Except.error`. -/

/-- Cache entry as filled by the render case (src/server.js lines 376-381):
`expiresAt` in epoch milliseconds, `html` the stored body, `etag` the
generated ETag, `lastModifiedAt` an optional `Date` in epoch milliseconds. -/
structure CacheEntry where
  expiresAt : Int
  html : String
  etag : String
  lastModifiedAt : Option Int
deriving DecidableEq

/-- Outcome of the request pipeline, as far as the claims need it:
`notModified` is a 304 with no body; `okHtml` is a 200 whose arguments are
the body, the `ETag` header, and the `Last-Modified` header (present iff
the `Option` is `some`); `errorCode` carries any other status code. -/
inductive Response where
  | notModified
  | okHtml (body : String) (etag : String) (lastModified : Option Int)
  | errorCode (code : Nat)
deriving DecidableEq

/-- Truthiness of an optional string header (`undefined` and `''` falsy). -/
def strTruthy : Option String → Bool
  | none => false
  | some s => s != ""

/-- JavaScript `x >= y` on `Date` values: `none` models an absent or
invalid date (comparison with `NaN` is false). -/
def jsDateGe : Option Int → Option Int → Bool
  | some x, some y => decide (y ≤ x)
  | _, _ => false

/-- Embedding of the cache-lookup block of `Server.requestHandler`
(src/server.js lines 286-303).  `cache` maps the verbatim request URL
(path plus query) to its entry; the result is `none` on a miss (the
handler then proceeds to render) and `some` when a cached response is
served.  The guard is `cached && cached.expiresAt && cached.expiresAt > now`,
then `clientETag && clientETag == cached.etag` chooses 304 over 200. -/
def cacheLookup (cache : String → Option CacheEntry) (url : String)
    (clientETag : Option String) (now : Int) : Option Response :=
  match cache url with
  | some c =>
      if c.expiresAt ≠ 0 ∧ c.expiresAt > now then
        if strTruthy clientETag ∧ clientETag = some c.etag then
          some .notModified
        else
          some (.okHtml c.html c.etag c.lastModifiedAt)
      else none
  | none => none

/-- The `{html, expiresIn, lastModifiedAt}` payload of a worker's
`{type:'render'}` reply (`expiresIn` in seconds, `lastModifiedAt` in
Unix seconds). -/
structure RenderEvent where
  html : String
  expiresIn : Int
  lastModifiedAt : Int
deriving DecidableEq

/-- The cache entry built by the render case (src/server.js lines
367-381): `expirationTime` is `(expiresIn === 0 ? 60*60*24*30 :
expiresIn) * 1000`; `lastModifiedAt` is `new Date(lastModifiedAt * 1000)`
when the seconds value is truthy, else `undefined`; the stored body is
the id-stripped HTML and the ETag is generated over it. -/
def fillEntry (now : Int) (event : RenderEvent) : CacheEntry :=
  ⟨now + (if event.expiresIn = 0 then 60 * 60 * 24 * 30 else event.expiresIn) * 1000,
   removeIds event.html,
   generateETag (removeIds event.html),
   if event.lastModifiedAt ≠ 0 then some (event.lastModifiedAt * 1000) else none⟩

/-- The response chosen by the render case after the cache fill
(src/server.js lines 384-402): 304 when `clientETag && clientETag ==
newEtag`; else, when `clientLastModifiedSince` is truthy, the comparison
`clientLastModifiedSince >= cached.lastModifiedAt` reads the property of
`cached` — the entry of the earlier lookup, `undefined` on a cold miss,
which throws (`Except.error`); else 200 with the stripped body, the new
ETag, and `Last-Modified` when present. -/
def renderResponse (clientETag : Option String) (clientIMS : Option (Option Int))
    (cached : Option CacheEntry) (entry : CacheEntry) : Except Unit Response :=
  if strTruthy clientETag ∧ clientETag = some entry.etag then
    .ok .notModified
  else
    match clientIMS with
    | some cls =>
        match cached with
        | none => .error ()
        | some oc =>
            if jsDateGe cls oc.lastModifiedAt then .ok .notModified
            else .ok (.okHtml entry.html entry.etag entry.lastModifiedAt)
    | none => .ok (.okHtml entry.html entry.etag entry.lastModifiedAt)

/-- Embedding of the `case 'render'` branch of `workWithChild`
(src/server.js lines 359-412).  Parameters: `cache` is the cache map,
`url` the request URL, `clientETag` the `If-None-Match` header,
`clientIMS` the parsed `If-Modified-Since` header (`none` = header
absent, `some none` = present but an invalid date, i.e. `NaN`),
`cached` the entry found by the earlier lookup (`undefined` on a cold
miss), `now` the `Date.now()` captured before the lookup, `event` the
worker reply.  When `event.html` is truthy the handler stores
`fillEntry` under the request URL and answers with `renderResponse`;
when the HTML is empty it answers 500 without touching the cache. -/
def handleRenderEvent (cache : String → Option CacheEntry) (url : String)
    (clientETag : Option String) (clientIMS : Option (Option Int))
    (cached : Option CacheEntry) (now : Int) (event : RenderEvent) :
    (String → Option CacheEntry) × Except Unit Response :=
  if event.html ≠ "" then
    ((fun u => if u = url then some (fillEntry now event) else cache u),
     renderResponse clientETag clientIMS cached (fillEntry now event))
  else (cache, .ok (.errorCode 500))

/-! ## Dispatch queue (src/server.js lines 226-251 and
src/unnamed/part_000 lines 149-174) -/

/-- The pending-request bound (`MAX_PENDING_REQUESTS = 1000`). -/
def MAX_PENDING_REQUESTS : Nat := 1000

/-- Outcome of one `getAvailableChildProcess()` call.  `acquired i`
resolves immediately with child `i` marked busy; `enqueued` pushes the
resolver onto `pendingRequests` and suspends; `queueFull` is the
dedicated `reject('Too many requests in the queue.')`; `nameError` is a
thrown ReferenceError (which also rejects the promise). -/
inductive AcquireResult where
  | acquired (index : Nat)
  | enqueued
  | queueFull
  | nameError
deriving DecidableEq

/-- Embedding of `Server.getAvailableChildProcess` (src/server.js lines
226-241).  `pool` lists the `busy` flags.  When every child is busy the
executor evaluates the bare identifier `MAX_PENDING_REQUESTS`; inside a
class method the instance field `this.MAX_PENDING_REQUESTS` is not in
lexical scope under that name and the module has no such binding, so the
line throws a ReferenceError before anything can be enqueued. -/
def getAvailableChildProcess (pool : List Bool) (pendingCount : Nat) :
    AcquireResult :=
  match pool.findIdx? (fun busy => !busy) with
  | some i => .acquired i
  | none =>
      let _ := pendingCount
      .nameError

/-- Embedding of `getAvailableChildProcess` from the closure-scoped
revision (src/unnamed/part_000 lines 149-164), where
`MAX_PENDING_REQUESTS` is a `const` in scope: find a free child, else
compare the pending count against the bound and either reject or append
the resolver `r` at the tail of the FIFO queue. -/
def getAvailableChildProcessPrev (pool : List Bool) (pending : List Nat)
    (r : Nat) : AcquireResult × List Nat :=
  match pool.findIdx? (fun busy => !busy) with
  | some i => (.acquired i, pending)
  | none =>
      if pending.length ≥ MAX_PENDING_REQUESTS then (.queueFull, pending)
      else (.enqueued, pending ++ [r])

/-- The `requestHandler` catch clause (src/server.js lines 432-439)
answers any rejection from the pipeline — including a failed acquire —
with `reply.code(503)`. -/
def acquireFailureResponse : AcquireResult → Option Response
  | .queueFull => some (.errorCode 503)
  | .nameError => some (.errorCode 503)
  | .acquired _ => none
  | .enqueued => none

/-! ## Worker-pool crash handling (src/server.js lines 154-212,
src/unnamed/part_000 lines 77-129) -/

/-- `DISASTER_RESPAWN_TIMEOUT = 10` (seconds). -/
def DISASTER_RESPAWN_TIMEOUT : Nat := 10

/-- `child.spawnedAt = (new Date()).getMilliseconds()`: the millisecond
component of the wall clock (0..999), not an epoch timestamp. -/
def spawnedAtOf (spawnClockMs : Nat) : Nat := spawnClockMs % 1000

/-- The exit handler's crash classification
`(new Date()).getMilliseconds() - child.spawnedAt < 5000`, where both
operands are millisecond components.  `spawnClockMs` and `exitClockMs`
are the full epoch-millisecond wall-clock times of spawn and exit. -/
def disasterCrash (spawnClockMs exitClockMs : Nat) : Bool :=
  decide ((((exitClockMs % 1000 : Nat)) : Int) - ((spawnedAtOf spawnClockMs : Nat) : Int) < 5000)

/-- Action taken by the `exit` handler: `stoppedChild` on SIGTERM (emit
`stopped_child_process`, no respawn), `intentionalNoRespawn` when the
`intentionally` flag was set, else a respawn scheduled after `delayMs`
with `disasterEvent` recording whether `disasterly_crashed` is emitted. -/
inductive ExitAction where
  | stoppedChild
  | intentionalNoRespawn
  | respawn (delayMs : Nat) (disasterEvent : Bool)
deriving DecidableEq

/-- Embedding of the `child.on('exit', …)` handler (src/server.js lines
160-210 and src/unnamed/part_000 lines 83-127).  The respawn delay
follows the closure revision, where `DISASTER_RESPAWN_TIMEOUT` resolves;
in the class revision the same identifier is bare inside a method and
its evaluation would itself throw a ReferenceError on the (always taken)
disaster branch. -/
def childExitHandler (signal : Option String) (intentionally : Bool)
    (spawnClockMs exitClockMs : Nat) : ExitAction :=
  if signal = some "SIGTERM" then .stoppedChild
  else if !intentionally then
    .respawn
      (if disasterCrash spawnClockMs exitClockMs then
        DISASTER_RESPAWN_TIMEOUT * 1000
      else 1)
      (disasterCrash spawnClockMs exitClockMs)
  else .intentionalNoRespawn

/-! ## Worker host (the forked process handler appended in
src/cloudFunction.js, and src/spawnWasi.js) -/

/-- A render job as sent by the parent (`{type:'render', path, search,
serverPort, pathToWasm, wasmMtime, …}`), restricted to the fields the
warm path reads. -/
structure RenderJob where
  path : String
  search : String
  wasmMtime : Int
deriving DecidableEq

/-- Reply produced by the warm path of the worker. -/
inductive WorkerReply where
  | restart
  | rendered (html : String) (expiresIn : Int) (lastModifiedAt : Int)
deriving DecidableEq

/-- Embedding of the warm path of the `process.on('message')` render
handler (src/cloudFunction.js lines 307-320 and 351-363): a worker whose
`process.wasmMtime` is recorded as `loadedMtime` and whose live DOM is
`dom`.  The guard is `if (process.wasmMtime && wasmMtime)` — both mtimes
truthy (nonzero) — and inside it `wasmMtime === process.wasmMtime`
decides between rendering and `{type:'restart'}`.  Otherwise the handler
falls through to `global.wasiChangeRoute(path, search, done)`; when
`done(expiresIn, lastModifiedAt)` fires it replies with
`process.dom.serialize()`.  `wasiChangeRoute` abstracts the Wasm app:
from path, search and the current DOM it produces the mutated DOM and
the two numbers passed to `done`. -/
def handleRenderWarm {Dom : Type} (serialize : Dom → String)
    (wasiChangeRoute : String → String → Dom → Dom × Int × Int)
    (loadedMtime : Int) (dom : Dom) (job : RenderJob) : WorkerReply × Dom :=
  if loadedMtime ≠ 0 ∧ job.wasmMtime ≠ 0 ∧ job.wasmMtime ≠ loadedMtime then
    (.restart, dom)
  else
    let r := wasiChangeRoute job.path job.search dom
    (.rendered (serialize r.1) r.2.1 r.2.2, r.1)

/-- Message from worker to parent (`{type:'render'|'not-rendered'|
'restart'|'crash'}`); `notRendered` is the `{type:'not-rendered'}`
message the parent handles at src/server.js line 350. -/
inductive ChildMsg where
  | renderMsg (html : String) (expiresIn : Int) (lastModifiedAt : Int)
  | notRendered
  | restartRequest
  | crashMsg (reason : String)
deriving DecidableEq

/-- Embedding of the cold-path `domHandler` callback passed to
`spawnWasi` (src/cloudFunction.js lines 340-350): it sets
`process.dom = dom` and unconditionally sends `{type:'render', …,
html: process.dom.serialize()}`.  When `dom` is `undefined` the call
`process.dom.serialize()` throws a TypeError (`Except.error`), so no
message is sent. -/
def coldDomHandler {Dom : Type} (serialize : Dom → String)
    (dom : Option Dom) (expiresIn lastModifiedAt : Int) :
    Except Unit ChildMsg :=
  match dom with
  | some d => .ok (.renderMsg (serialize d) expiresIn lastModifiedAt)
  | none => .error ()

/-- Behaviour of the Wasm app during cold start, as observed by
`spawnWasi` (src/spawnWasi.js lines 96-119): either the app never calls
the installed `wasiAppOnStart` within the 5000 ms deadline, or it calls
it without having registered `global.wasiChangeRoute`, or it calls it
with a registered route-change function. -/
inductive WasmAppStart (Dom : Type) where
  | neverCallsOnStart
  | noChangeRouteRegistered
  | changeRoute (f : String → String → Dom → Dom × Int × Int)

/-- Embedding of the cold-start outcome of `spawnWasi` (src/spawnWasi.js
lines 96-119): on the missed 5-second deadline the timer calls
`domHandler(undefined, 0, 0)`; on a missing `wasiChangeRoute` the
`wasiAppOnStart` callback likewise calls `domHandler(undefined, 0, 0)`;
otherwise `wasiChangeRoute(path, search, done)` leads to
`domHandler(dom, expiresIn, lastModifiedAt)`. -/
def spawnWasiReply {Dom : Type} (serialize : Dom → String) (dom : Dom)
    (path search : String) (app : WasmAppStart Dom) : Except Unit ChildMsg :=
  match app with
  | .neverCallsOnStart => coldDomHandler serialize none 0 0
  | .noChangeRouteRegistered => coldDomHandler serialize none 0 0
  | .changeRoute f =>
      let r := f path search dom
      coldDomHandler serialize (some r.1) r.2.1 r.2.2

/-! ## Startup and exit codes (src/server.js `start`, src/main.js env
entry lines 35-55, and the CLI action appended in src/spawnWasi.js) -/

/-- Result of `start(...)` (src/server.js lines 47-109): `errorCode 0`
when `pathToWasm` is `undefined`, `errorCode 1` when the Wasm file does
not exist, `errorCode 2` when `fastify.listen` fails, else the running
server (`started`). -/
inductive StartOutcome where
  | started
  | errorCode (code : Nat)
deriving DecidableEq

/-- Embedding of the error paths of `start` (src/server.js lines 47-109). -/
def startOutcome (pathToWasm : Option String) (wasmFileExists listenSucceeds : Bool) :
    StartOutcome :=
  match pathToWasm with
  | none => .errorCode 0
  | some _ =>
      if !wasmFileExists then .errorCode 1
      else if listenSucceeds then .started
      else .errorCode 2

/-- Embedding of the entry-point dispatch `if (started.errorCode)
switch (started.errorCode) { case 0: process.exit(10) … }` (src/main.js
lines 43-54, identically the CLI action in src/spawnWasi.js lines
184-199).  The `if` tests JavaScript truthiness, so `errorCode: 0` is
falsy and the `switch` is never entered; `none` means the process is not
exited by this dispatch. -/
def entryExitCode : StartOutcome → Option Nat
  | .started => none
  | .errorCode c =>
      if c ≠ 0 then
        some (match c with
          | 0 => 10
          | 1 => 20
          | 2 => 30
          | _ => 1)
      else none

/-- Exit code of a CLI/environment run as a function of the startup
conditions. -/
def runExitCode (pathToWasm : Option String) (wasmFileExists listenSucceeds : Bool) :
    Option Nat :=
  entryExitCode (startOutcome pathToWasm wasmFileExists listenSucceeds)

/-- A concrete Wasm-app route-change behaviour over a `String` DOM, used
to evaluate the worker embedding on closed inputs: navigating appends the
path to the DOM and reports `expiresIn = 7`, `lastModifiedAt = 9`. -/
def demoChangeRoute : String → String → String → String × Int × Int :=
  fun path _ dom => (dom ++ path, 7, 9)

/-! ## Support lemmas -/

theorem matchAfterQuote_length_lt {l r : List Char}
    (h : matchAfterQuote l = some r) : r.length < l.length := by
  unfold matchAfterQuote at h
  have hsub := (List.dropWhile_sublist (l := l)
    (fun c => !(isQuoteChar c))).length_le
  cases hd : l.dropWhile (fun c => !(isQuoteChar c)) with
  | nil => rw [hd] at h; exact absurd h (by simp)
  | cons x xs =>
      rw [hd] at h hsub
      simp only [Option.some.injEq] at h
      subst h
      simp only [List.length_cons] at hsub
      omega

theorem matchIdTail_length_lt {l r : List Char}
    (h : matchIdTail l = some r) : r.length < l.length := by
  unfold matchIdTail at h
  split at h
  · next rest =>
      split at h
      · have := matchAfterQuote_length_lt h
        simp only [List.length_cons]
        omega
      · exact absurd h (by simp)
  · exact absurd h (by simp)

theorem matchIdAttr_length_lt {l r : List Char}
    (h : matchIdAttr l = some r) : r.length < l.length := by
  unfold matchIdAttr at h
  cases l with
  | nil => exact absurd h (by simp)
  | cons c tl =>
      simp only at h
      split at h
      · have h1 := matchIdTail_length_lt h
        have h2 := (List.dropWhile_sublist (l := tl) isJsWhitespace).length_le
        simp only [List.length_cons]
        omega
      · exact absurd h (by simp)

theorem removeIdsAux_length_le (n : Nat) :
    ∀ l : List Char, (removeIdsAux n l).length ≤ l.length := by
  induction n with
  | zero => intro l; simp [removeIdsAux]
  | succ n ih =>
      intro l
      cases l with
      | nil => simp [removeIdsAux]
      | cons c tl =>
          rw [removeIdsAux]
          cases hm : matchIdAttr (c :: tl) with
          | some rest =>
              have h1 := matchIdAttr_length_lt hm
              have h2 := ih rest
              simp only [Option.elim]
              omega
          | none =>
              have := ih tl
              simp only [Option.elim, List.length_cons]
              omega

theorem removeIdsAux_fuel_irrelevant (n : Nat) :
    ∀ (m : Nat) (l : List Char), l.length ≤ n → l.length ≤ m →
      removeIdsAux n l = removeIdsAux m l := by
  induction n with
  | zero =>
      intro m l hn _
      have : l = [] := List.length_eq_zero.mp (Nat.le_zero.mp hn)
      subst this
      cases m <;> simp [removeIdsAux]
  | succ n ih =>
      intro m l hn hm
      cases m with
      | zero =>
          have : l = [] := List.length_eq_zero.mp (Nat.le_zero.mp hm)
          subst this
          simp [removeIdsAux]
      | succ m =>
          cases l with
          | nil => simp [removeIdsAux]
          | cons c tl =>
              rw [removeIdsAux, removeIdsAux]
              simp only [List.length_cons] at hn hm
              cases hmt : matchIdAttr (c :: tl) with
              | some rest =>
                  have h1 := matchIdAttr_length_lt hmt
                  simp only [List.length_cons] at h1
                  simp only [Option.elim]
                  exact ih m rest (by omega) (by omega)
              | none =>
                  simp only [Option.elim]
                  rw [ih m tl (by omega) (by omega)]

theorem removeIdsAux_eq_or_length_lt (n : Nat) :
    ∀ l : List Char, l.length ≤ n →
      removeIdsAux n l = l ∨ (removeIdsAux n l).length < l.length := by
  induction n with
  | zero =>
      intro l hn
      have : l = [] := List.length_eq_zero.mp (Nat.le_zero.mp hn)
      subst this
      exact Or.inl rfl
  | succ n ih =>
      intro l hn
      cases l with
      | nil => exact Or.inl rfl
      | cons c tl =>
          rw [removeIdsAux]
          simp only [List.length_cons] at hn
          cases hm : matchIdAttr (c :: tl) with
          | some rest =>
              have h1 := matchIdAttr_length_lt hm
              have h2 := removeIdsAux_length_le n rest
              simp only [Option.elim, List.length_cons] at h1 ⊢
              exact Or.inr (by omega)
          | none =>
              simp only [Option.elim]
              cases ih tl (by omega) with
              | inl h => exact Or.inl (by rw [h])
              | inr h =>
                  exact Or.inr (by simp only [List.length_cons]; omega)

/-- A successful 200 produced by `renderResponse` always carries the
entry's stored body, ETag and Last-Modified. -/
theorem renderResponse_ok_html {clientETag : Option String}
    {clientIMS : Option (Option Int)} {cached : Option CacheEntry}
    {entry : CacheEntry} {b et : String} {lm : Option Int}
    (h : renderResponse clientETag clientIMS cached entry =
      Except.ok (Response.okHtml b et lm)) :
    b = entry.html ∧ et = entry.etag ∧ lm = entry.lastModifiedAt := by
  unfold renderResponse at h
  split at h
  · exact absurd h (by simp)
  · split at h
    · split at h
      · exact absurd h (by simp)
      · split at h
        · exact absurd h (by simp)
        · simp only [Except.ok.injEq, Response.okHtml.injEq] at h
          exact ⟨h.1.symm, h.2.1.symm, h.2.2.symm⟩
    · simp only [Except.ok.injEq, Response.okHtml.injEq] at h
      exact ⟨h.1.symm, h.2.1.symm, h.2.2.symm⟩

/-- `renderResponse` has exactly three outcomes: a 200 carrying the
entry's body, ETag and Last-Modified, a 304, or the thrown TypeError. -/
theorem renderResponse_cases (clientETag : Option String)
    (clientIMS : Option (Option Int)) (cached : Option CacheEntry)
    (entry : CacheEntry) :
    renderResponse clientETag clientIMS cached entry =
        Except.ok (Response.okHtml entry.html entry.etag entry.lastModifiedAt) ∨
    renderResponse clientETag clientIMS cached entry =
        Except.ok Response.notModified ∨
    renderResponse clientETag clientIMS cached entry = Except.error () := by
  unfold renderResponse
  split
  · exact Or.inr (Or.inl rfl)
  · split
    · split
      · exact Or.inr (Or.inr rfl)
      · split
        · exact Or.inr (Or.inl rfl)
        · exact Or.inl rfl
    · exact Or.inl rfl

/-- RFC 1321 reference vector: the MD5 of the empty message. -/
theorem md5Hex_empty_vector : md5Hex "" = "d41d8cd98f00b204e9800998ecf8427e" := by
  set_option maxRecDepth 10000 in decide

/-- RFC 1321 reference vector: the MD5 of `abc`. -/
theorem md5Hex_abc_vector : md5Hex "abc" = "900150983cd24fb0d6963f7d28e17f72" := by
  set_option maxRecDepth 10000 in decide

/-! ## Claims -/

/-- Claim C1: cache lookup.  For every request URL, if the cache has no
entry for the exact URL (path plus query verbatim) or the entry's
`expiresAt` is at most the current time, the lookup is a miss and no
cached response is served; otherwise, if the client sent `If-None-Match`
equal to the entry's ETag the response is 304 with no body, and otherwise
200 with the cached body, an `ETag` header, and a `Last-Modified` header
exactly when the entry has a `lastModifiedAt`.  The hypotheses `0 ≤ now`
(`Date.now()` is nonnegative) and `e.etag ≠ ""` (every stored ETag is a
32-character MD5 digest) restrict to the states the server can reach. -/
theorem c1_cache_lookup (cache : String → Option CacheEntry) (url : String)
    (clientETag : Option String) (now : Int) :
    (cache url = none → cacheLookup cache url clientETag now = none) ∧
    (∀ e, cache url = some e → e.expiresAt ≤ now →
      cacheLookup cache url clientETag now = none) ∧
    (∀ e, cache url = some e → now < e.expiresAt → 0 ≤ now → e.etag ≠ "" →
      (clientETag = some e.etag →
        cacheLookup cache url clientETag now = some Response.notModified) ∧
      (clientETag ≠ some e.etag →
        cacheLookup cache url clientETag now =
          some (Response.okHtml e.html e.etag e.lastModifiedAt))) := by
  refine ⟨?_, ?_, ?_⟩
  · intro h
    unfold cacheLookup
    rw [h]
  · intro e he hle
    simp only [cacheLookup, he]
    rw [if_neg]
    rintro ⟨-, hgt⟩
    omega
  · intro e he hgt hnow hne
    have hcond : e.expiresAt ≠ 0 ∧ e.expiresAt > now := ⟨by omega, hgt⟩
    constructor
    · intro hmat
      simp only [cacheLookup, he]
      rw [if_pos hcond, if_pos]
      refine ⟨?_, hmat⟩
      rw [hmat]
      simp [strTruthy, hne]
    · intro hnm
      simp only [cacheLookup, he]
      rw [if_pos hcond, if_neg]
      rintro ⟨-, hequal⟩
      exact hnm hequal

/-- Witness for C1: a concrete fresh entry under `/a?b=1` with ETag `e1`
answers a matching `If-None-Match` with 304. -/
theorem c1_cache_lookup_witness :
    cacheLookup
        (fun u => if u = "/a?b=1" then
          some (⟨1000, "<p>x</p>", "e1", some 5⟩ : CacheEntry) else none)
        "/a?b=1" (some "e1") 10 = some Response.notModified :=
  ((c1_cache_lookup
      (fun u => if u = "/a?b=1" then
        some (⟨1000, "<p>x</p>", "e1", some 5⟩ : CacheEntry) else none)
      "/a?b=1" (some "e1") 10).2.2
    ⟨1000, "<p>x</p>", "e1", some 5⟩ (by decide) (by decide) (by decide)
    (by decide)).1 rfl

/-- Claim C2: cache fill.  For every successful render reply carrying
non-empty HTML, the entry stored under the request URL holds the
id-stripped body, its ETag is the lowercase hex MD5 digest of that
stripped body, and the reply sent to the client is either a 200 carrying
exactly that stripped body and that ETag, or a 304, or the thrown
error of the If-Modified-Since branch — never a body other than the
stripped one. -/
theorem c2_cache_fill (cache : String → Option CacheEntry) (url : String)
    (clientETag : Option String) (clientIMS : Option (Option Int))
    (cached : Option CacheEntry) (now : Int) (event : RenderEvent)
    (hhtml : event.html ≠ "") :
    (handleRenderEvent cache url clientETag clientIMS cached now event).1 url =
      some (fillEntry now event) ∧
    (fillEntry now event).html = removeIds event.html ∧
    (fillEntry now event).etag = md5Hex (removeIds event.html) ∧
    ((handleRenderEvent cache url clientETag clientIMS cached now event).2 =
        Except.ok (Response.okHtml (removeIds event.html)
          (md5Hex (removeIds event.html)) (fillEntry now event).lastModifiedAt) ∨
     (handleRenderEvent cache url clientETag clientIMS cached now event).2 =
        Except.ok Response.notModified ∨
     (handleRenderEvent cache url clientETag clientIMS cached now event).2 =
        Except.error ()) := by
  unfold handleRenderEvent
  rw [if_pos hhtml]
  exact ⟨by simp, rfl, rfl,
    renderResponse_cases clientETag clientIMS cached (fillEntry now event)⟩

/-- Witness for C2: filling from a concrete render reply on a cold miss. -/
theorem c2_cache_fill_witness :
    (handleRenderEvent (fun _ => none) "/a?x=1" none none none 0
        (⟨"<p id=\"r1\">t</p>", 60, 0⟩ : RenderEvent)).1 "/a?x=1" =
      some (fillEntry 0 ⟨"<p id=\"r1\">t</p>", 60, 0⟩) ∧
    (fillEntry 0 (⟨"<p id=\"r1\">t</p>", 60, 0⟩ : RenderEvent)).html =
      removeIds "<p id=\"r1\">t</p>" ∧
    (fillEntry 0 (⟨"<p id=\"r1\">t</p>", 60, 0⟩ : RenderEvent)).etag =
      md5Hex (removeIds "<p id=\"r1\">t</p>") ∧
    ((handleRenderEvent (fun _ => none) "/a?x=1" none none none 0
        (⟨"<p id=\"r1\">t</p>", 60, 0⟩ : RenderEvent)).2 =
        Except.ok (Response.okHtml (removeIds "<p id=\"r1\">t</p>")
          (md5Hex (removeIds "<p id=\"r1\">t</p>"))
          (fillEntry 0 (⟨"<p id=\"r1\">t</p>", 60, 0⟩ : RenderEvent)).lastModifiedAt) ∨
     (handleRenderEvent (fun _ => none) "/a?x=1" none none none 0
        (⟨"<p id=\"r1\">t</p>", 60, 0⟩ : RenderEvent)).2 =
        Except.ok Response.notModified ∨
     (handleRenderEvent (fun _ => none) "/a?x=1" none none none 0
        (⟨"<p id=\"r1\">t</p>", 60, 0⟩ : RenderEvent)).2 = Except.error ()) :=
  c2_cache_fill (fun _ => none) "/a?x=1" none none none 0
    ⟨"<p id=\"r1\">t</p>", 60, 0⟩ (by decide)

/-- Claim C6: TTL arithmetic.  For every successful render (non-empty
HTML), the stored entry's `expiresAt` is the lookup-time `now` plus
`expiresIn * 1000` milliseconds when the app-supplied `expiresIn`
(seconds) is nonzero, and `now` plus exactly 2 592 000 000 ms (30 days)
when `expiresIn` is 0. -/
theorem c6_ttl (cache : String → Option CacheEntry) (url : String)
    (clientETag : Option String) (clientIMS : Option (Option Int))
    (cached : Option CacheEntry) (now : Int) (event : RenderEvent)
    (hhtml : event.html ≠ "") :
    (handleRenderEvent cache url clientETag clientIMS cached now event).1 url =
      some (fillEntry now event) ∧
    (event.expiresIn ≠ 0 →
      (fillEntry now event).expiresAt = now + event.expiresIn * 1000) ∧
    (event.expiresIn = 0 →
      (fillEntry now event).expiresAt = now + 2592000000) := by
  refine ⟨?_, ?_, ?_⟩
  · unfold handleRenderEvent
    rw [if_pos hhtml]
    simp
  · intro h0
    unfold fillEntry
    rw [if_neg h0]
  · intro h0
    unfold fillEntry
    rw [if_pos h0]
    norm_num

/-- Witness for C6: a 60-second TTL and a zero TTL at lookup time 100. -/
theorem c6_ttl_witness :
    (fillEntry 100 (⟨"<p>a</p>", 60, 0⟩ : RenderEvent)).expiresAt =
      100 + 60 * 1000 ∧
    (fillEntry 100 (⟨"<p>a</p>", 0, 0⟩ : RenderEvent)).expiresAt =
      100 + 2592000000 :=
  ⟨(c6_ttl (fun _ => none) "/a" none none none 100 ⟨"<p>a</p>", 60, 0⟩
      (by decide)).2.1 (by decide),
   (c6_ttl (fun _ => none) "/a" none none none 100 ⟨"<p>a</p>", 0, 0⟩
      (by decide)).2.2 rfl⟩

/-- Claim C3: dispatch queue (divergence).  In the class-based
`Server.getAvailableChildProcess` of src/server.js, an acquire with all
four workers busy and an empty pending queue — far below the 1000 bound —
does not enqueue and suspend: the bare identifier `MAX_PENDING_REQUESTS`
is not in scope inside the class method, so the executor throws a
ReferenceError and the request is answered 503 by the catch clause.  The
closure-scoped revision (src/unnamed/part_000) implements the claimed
behaviour: below the bound the resolver is appended at the tail of the
FIFO queue, at the bound the acquire fails with the dedicated queue-full
rejection, and that rejection is answered 503. -/
theorem c3_queue_bound_divergence :
    getAvailableChildProcess [true, true, true, true] 0 =
      AcquireResult.nameError ∧
    acquireFailureResponse (getAvailableChildProcess [true, true, true, true] 0) =
      some (Response.errorCode 503) ∧
    (getAvailableChildProcessPrev [true, true, true, true] [5] 7).1 =
      AcquireResult.enqueued ∧
    (getAvailableChildProcessPrev [true, true, true, true] [5] 7).2 = [5, 7] ∧
    (getAvailableChildProcessPrev [true, true, true, true]
        (List.replicate MAX_PENDING_REQUESTS 0) 7).1 = AcquireResult.queueFull ∧
    acquireFailureResponse
        (getAvailableChildProcessPrev [true, true, true, true]
          (List.replicate MAX_PENDING_REQUESTS 0) 7).1 =
      some (Response.errorCode 503) ∧
    (getAvailableChildProcessPrev [false, true, true, true] [] 7).1 =
      AcquireResult.acquired 0 := by
  set_option maxRecDepth 10000 in decide

/-- Claim C4: crash classification (divergence).  `child.spawnedAt` is
`(new Date()).getMilliseconds()` — the millisecond component of the
clock, 0..999 — and the exit handler compares another millisecond
component against it, so the computed difference is always below 5000
and every unexpected (non-SIGTERM, non-intentional) exit is classified
as a disaster crash with the 10-second respawn and the
`disasterly_crashed` event, no matter how long after spawn it happens. -/
theorem c4_crash_always_disaster (spawnClockMs exitClockMs : Nat) :
    childExitHandler none false spawnClockMs exitClockMs =
      ExitAction.respawn (DISASTER_RESPAWN_TIMEOUT * 1000) true := by
  have hd : disasterCrash spawnClockMs exitClockMs = true := by
    unfold disasterCrash spawnedAtOf
    simp only [decide_eq_true_eq]
    have h1 : exitClockMs % 1000 < 1000 := Nat.mod_lt _ (by omega)
    have h2 : spawnClockMs % 1000 < 1000 := Nat.mod_lt _ (by omega)
    omega
  simp [childExitHandler, hd]

/-- Claim C5: conditional revalidation on a fresh render (divergence at
the failing input).  On a cold miss — no prior cache entry — with an
`If-Modified-Since` header present and no matching `If-None-Match`, the
render case evaluates `cached.lastModifiedAt` with `cached` undefined:
the handler throws a TypeError instead of answering 304, so the claimed
`If-Modified-Since ≥ lastModifiedAt → 304` behaviour does not hold on a
cold miss. -/
theorem c5_cold_miss_ims_throws :
    (handleRenderEvent (fun _ => none) "/page" none (some (some 1700000001000))
        none 0 (⟨"<html><body>hi</body></html>", 60, 1700000000⟩ : RenderEvent)).2 =
      Except.error () := rfl

/-- Claim C7 counterexample: a worker with `loadedMtime = 5` receiving a
job whose `wasmMtime` is `0` — strictly different from the loaded mtime —
does not reply `restart` (the truthiness guard `process.wasmMtime &&
wasmMtime` skips the comparison), refuting `restart exactly when the
mtimes are strictly different`. -/
theorem c7_counterexample :
    ((handleRenderWarm (fun d : String => d) demoChangeRoute 5 "<d>"
        (⟨"/p", "", 0⟩ : RenderJob)).1 = WorkerReply.restart) = False ∧
    ((⟨"/p", "", 0⟩ : RenderJob).wasmMtime = 5) = False :=
  ⟨eq_false (by decide), eq_false (by decide)⟩

/-- Claim C7 (amended): for a worker with a loaded instance, when both
the recorded `loadedMtime` and the job's `wasmMtime` are nonzero
(truthy), the worker replies `restart` exactly when the two mtimes are
strictly different; when they are equal it invokes the registered
`wasiChangeRoute` with the job's path and search and replies `rendered`
with the serialized DOM produced by the route change. -/
theorem c7_warm_path_amended {Dom : Type} (serialize : Dom → String)
    (wasiChangeRoute : String → String → Dom → Dom × Int × Int)
    (loadedMtime : Int) (dom : Dom) (job : RenderJob)
    (hl : loadedMtime ≠ 0) (hj : job.wasmMtime ≠ 0) :
    ((handleRenderWarm serialize wasiChangeRoute loadedMtime dom job).1 =
        WorkerReply.restart ↔ job.wasmMtime ≠ loadedMtime) ∧
    (job.wasmMtime = loadedMtime →
      handleRenderWarm serialize wasiChangeRoute loadedMtime dom job =
        (WorkerReply.rendered (serialize (wasiChangeRoute job.path job.search dom).1)
            (wasiChangeRoute job.path job.search dom).2.1
            (wasiChangeRoute job.path job.search dom).2.2,
          (wasiChangeRoute job.path job.search dom).1)) := by
  unfold handleRenderWarm
  by_cases hne : job.wasmMtime = loadedMtime
  · rw [if_neg (fun h => h.2.2 hne)]
    exact ⟨by simp [hne], fun _ => rfl⟩
  · rw [if_pos ⟨hl, hj, hne⟩]
    exact ⟨by simp [hne], fun h => absurd h hne⟩

/-- Witness for C7 (amended): a worker with `loadedMtime = 5` and a job
with `wasmMtime = 9` — both truthy, different — replies restart. -/
theorem c7_warm_path_amended_witness :
    (((handleRenderWarm (fun d : String => d) demoChangeRoute 5 "<d>"
          (⟨"/p", "", 9⟩ : RenderJob)).1 = WorkerReply.restart) ↔
        ((⟨"/p", "", 9⟩ : RenderJob).wasmMtime ≠ 5)) ∧
    ((⟨"/p", "", 9⟩ : RenderJob).wasmMtime = 5 →
      handleRenderWarm (fun d : String => d) demoChangeRoute 5 "<d>"
          (⟨"/p", "", 9⟩ : RenderJob) =
        (WorkerReply.rendered
            ((fun d : String => d) (demoChangeRoute "/p" "" "<d>").1)
            (demoChangeRoute "/p" "" "<d>").2.1
            (demoChangeRoute "/p" "" "<d>").2.2,
          (demoChangeRoute "/p" "" "<d>").1)) :=
  c7_warm_path_amended (fun d : String => d) demoChangeRoute 5 "<d>"
    ⟨"/p", "", 9⟩ (by decide) (by decide)

/-- Claim C8: worker start failure (divergence).  When the Wasm app
misses the 5-second `wasiAppOnStart` deadline, or calls it without
having registered `wasiChangeRoute`, `spawnWasi` invokes
`domHandler(undefined, 0, 0)`; the cold-path `domHandler` of the forked
process then evaluates `process.dom.serialize()` on `undefined`, which
throws a TypeError — so no `{type:'not-rendered'}` message is produced
(nothing in the repository ever sends one; the parent's handler for it
is dead code) and the child dies from the uncaught exception instead of
replying. -/
theorem c8_start_failure_divergence :
    spawnWasiReply (fun d : String => d) "<html></html>" "/p" ""
        WasmAppStart.neverCallsOnStart = Except.error () ∧
    spawnWasiReply (fun d : String => d) "<html></html>" "/p" ""
        WasmAppStart.noChangeRouteRegistered = Except.error () ∧
    coldDomHandler (fun d : String => d) none 0 0 = Except.error () :=
  ⟨rfl, rfl, rfl⟩

/-- Claim C9: startup exit codes (divergence at the failing input).
A run whose Wasm file does not exist exits with code 20 and a run whose
HTTP listener fails to start exits with code 30, as claimed; but a run
with an undefined Wasm path makes `start` return `{errorCode: 0}`, and
the entry point's `if (started.errorCode)` treats 0 as falsy, so the
`process.exit(10)` branch is unreachable and the process is not
terminated with exit code 10. -/
theorem c9_exit_codes_divergence :
    startOutcome none true true = StartOutcome.errorCode 0 ∧
    runExitCode none true true = none ∧
    runExitCode (some "/app.wasm") false true = some 20 ∧
    runExitCode (some "/app.wasm") true false = some 30 :=
  ⟨rfl, rfl, rfl, rfl⟩

/-- Claim C10 counterexample: id-stripping is not idempotent.  On
`" i id='z'd='q'"` one application removes the attribute ` id='z'`,
splicing the surrounding text into the new attribute ` id='q'`, which a
second application removes: `removeIds` of the string is `" id='q'"`
while `removeIds` applied twice gives `""`. -/
theorem c10_counterexample :
    (removeIds (removeIds " i id=\x27z\x27d=\x27q\x27") =
      removeIds " i id=\x27z\x27d=\x27q\x27") = False ∧
    removeIds " i id=\x27z\x27d=\x27q\x27" = " id=\x27q\x27" ∧
    removeIds " id=\x27q\x27" = "" :=
  ⟨eq_false (by decide), by decide, by decide⟩

/-- Claim C10 (amended): applying the id-stripper to an already-stripped
body need not leave it unchanged — removal can splice the surrounding
text into a new id attribute — but every application of `removeIds`
either returns its argument unchanged or returns a strictly shorter
string, so repeated application reaches a fixed point. -/
theorem c10_remove_ids_shrinks (h : String) :
    removeIds h = h ∨ (removeIds h).length < h.length := by
  obtain ⟨l⟩ := h
  cases removeIdsAux_eq_or_length_lt l.length l (Nat.le_refl _) with
  | inl heq => exact Or.inl (congrArg String.mk heq)
  | inr hlt => exact Or.inr hlt

end CrawlServer
